import Mathlib

/-!
Verification of the gzip codec layer of the compression subsystem
(`cpp/src/arrow/util/compression_zlib_isal.cc`).

The repository code drives two external engines: zlib `deflate` for
compression and Intel ISA-L `isal_inflate` for decompression.  The engines
themselves are external collaborators (out of scope for the repository), so
they are modelled here by executable Lean functions that follow the engines
documented contracts:

* `deflate(Z_FINISH)` on a freshly initialized or reset stream emits a
  framed stream (raw deflate, zlib wrapper, or gzip wrapper, chosen by the
  window-bits parameter of `deflateInit2`) whose length is bounded by
  `deflateBound`; if the output buffer cannot hold the whole stream it
  returns `Z_OK` instead of `Z_STREAM_END`.  The compressed payload is
  modelled as a length-prefixed copy of the input (the bit-level coding is
  out of scope); the framing and the size accounting are what matters for
  the claims.
* stateful `isal_inflate` consumes the wrapper and payload incrementally
  across calls, returns `ISAL_DECOMP_OK` (0) on normal progress — including
  when it stops early because `avail_in` or `avail_out` ran out, which is
  reported through the buffer counters and `block_state`, not through the
  return value — and returns a negative code such as `ISAL_INVALID_WRAPPER`
  when the compressed bitstream is malformed.  `ISAL_BLOCK_FINISH` is a
  value of the `block_state` field, not a return code.

All codec-level functions are translated directly from the source file;
machine-integer truncation (`static_cast<uInt>` on 64-bit lengths) is kept
as arithmetic modulo 2^32.
-/

namespace ArrowGzip

/-- Return code of a successful `isal_inflate` call (`igzip_lib.h`). -/
def ISAL_DECOMP_OK : Int := 0

/-- Error return code of `isal_inflate` for a malformed gzip/zlib wrapper. -/
def ISAL_INVALID_WRAPPER : Int := -4

/-- Value of the `isal_block_state` enumerator `ISAL_BLOCK_FINISH`
(`igzip_lib.h`).  It is a `block_state` value; the source nevertheless
compares the `isal_inflate` return code against it. -/
def ISAL_BLOCK_FINISH : Int := 5

/-- Maximum window size constant from the source. -/
def WINDOW_BITS : Int := 15

/-- Window-bits offset requesting gzip framing from zlib (source constant). -/
def GZIP_CODEC : Int := 16

/-- The gzip format variants (`GZipFormat::type`). -/
inductive GZipFormat where
  | DEFLATE
  | ZLIB
  | GZIP
deriving DecidableEq, Repr

/-- `CompressionWindowBitsForFormat` from the source: negative window bits
select raw deflate, `+16` selects the gzip wrapper. -/
def CompressionWindowBitsForFormat : GZipFormat → Int
  | .DEFLATE => -WINDOW_BITS
  | .GZIP => WINDOW_BITS + GZIP_CODEC
  | .ZLIB => WINDOW_BITS

/-- Outcome of an operation: a returned value, a returned `Status` error
(`IOError` or `NotImplemented`), or a process abort caused by an
`ARROW_CHECK` / `ARROW_CHECK_OK` assertion. -/
inductive Outcome (α : Type) where
  | ok (a : α)
  | ioError (msg : String)
  | notImplemented (msg : String)
  | abort (msg : String)
deriving DecidableEq, Repr

/-- Modelled from the repository compression header (not in the source
sample): progress record returned by one streaming decompress call; the
source initializes it positionally as bytes read, bytes written, and the
need-more-output flag. -/
structure DecompressResult where
  bytes_read : Nat
  bytes_written : Nat
  need_more_output : Bool
deriving DecidableEq, Repr

/-- Truncating cast of a 64-bit length to the 32-bit `uInt` buffer counters
of zlib and ISA-L, as performed by `static_cast<uInt>` in the source. -/
def u32cast (n : Nat) : Nat := n % 4294967296

/-- Little-endian base-256 encoding of `n` on `k` bytes.  Part of the
engine model: the modelled deflate payload is a length-prefixed copy of the
input, making the compressed stream self-delimiting like a real deflate
stream. -/
def encLE : Nat → Nat → List Nat
  | 0, _ => []
  | k + 1, n => n % 256 :: encLE k (n / 256)

/-- Little-endian base-256 decoding, inverse of `encLE`. -/
def decLE : List Nat → Nat
  | [] => 0
  | b :: t => b % 256 + 256 * decLE t

/-- The fixed 10-byte gzip member header used by the engine model
(magic bytes 31 and 139, deflate method, zeroed flags and mtime). -/
def gzipHeaderBytes : List Nat := [31, 139, 8, 0, 0, 0, 0, 0, 0, 255]

/-- Byte overhead added by the framing selected through window bits:
nothing for raw deflate, 6 bytes for the zlib wrapper, 18 bytes for the
gzip wrapper (header plus trailer). -/
def wrapOverhead (window_bits : Int) : Nat :=
  if window_bits < 0 then 0 else if 16 ≤ window_bits then 18 else 6

/-- Engine model of the full stream emitted by `deflate(Z_FINISH)` on a
stream configured with the given window bits: the length-prefixed payload
surrounded by the framing the window bits select. -/
def zlibFrame (window_bits : Int) (b : List Nat) : List Nat :=
  let core := encLE 8 b.length ++ b
  if window_bits < 0 then core
  else if 16 ≤ window_bits then
    gzipHeaderBytes ++ core ++ List.replicate 8 0
  else
    [120, 156] ++ core ++ List.replicate 4 0

/-- Engine model of `deflateBound`: an upper bound on the size of the
stream `deflate(Z_FINISH)` emits for an input of the given length, under
the framing selected by the window bits of the stream. -/
def deflateBound (window_bits : Int) (input_length : Nat) : Nat :=
  input_length + 8 + wrapOverhead window_bits

/-- Engine model of the parameter validation of zlib `deflateInit2`:
the compression level must be `-1` (default) or in `0..9`, the memory
level must be in `1..9`, and the window bits must select a supported
raw/zlib/gzip configuration. -/
def deflateInit2Ok (level window_bits mem_level : Int) : Prop :=
  (level = -1 ∨ (0 ≤ level ∧ level ≤ 9)) ∧
  (1 ≤ mem_level ∧ mem_level ≤ 9) ∧
  ((8 ≤ window_bits ∧ window_bits ≤ 15) ∨
   (-15 ≤ window_bits ∧ window_bits ≤ -8) ∨
   (24 ≤ window_bits ∧ window_bits ≤ 31))

instance (level window_bits mem_level : Int) :
    Decidable (deflateInit2Ok level window_bits mem_level) := by
  unfold deflateInit2Ok
  infer_instance

/-- Progress of the modelled ISA-L inflate state machine through one
framed stream: matching the expected wrapper header, reading the 8-byte
length prefix, copying the payload, consuming the trailer, finished. -/
inductive InfPhase where
  | hdr (expected : List Nat)
  | len (acc : List Nat) (need : Nat)
  | payload (remaining : Nat)
  | trailer (remaining : Nat)
  | finish
deriving DecidableEq, Repr

/-- Normalizing constructor: an empty payload moves straight to the
trailer. -/
def normPayload (n : Nat) : InfPhase :=
  if n = 0 then .trailer 8 else .payload n

/-- Normalizing constructor: once all 8 length bytes are read, the decoded
length becomes the pending payload count. -/
def normLen (acc : List Nat) (need : Nat) : InfPhase :=
  if need = 0 then normPayload (decLE acc) else .len acc need

/-- Normalizing constructor: an exhausted expected header moves to the
length prefix. -/
def normHdr (expected : List Nat) : InfPhase :=
  match expected with
  | [] => .len [] 8
  | e => .hdr e

/-- Normalizing constructor: an exhausted trailer reaches the terminal
`ISAL_BLOCK_FINISH` state. -/
def normTrailer (n : Nat) : InfPhase :=
  if n = 0 then .finish else .trailer n

/-- Result of one modelled `isal_inflate` call: the new block state, the
number of input bytes consumed, the decompressed bytes written, and the
engine return code. -/
structure InflateRun where
  phase : InfPhase
  consumed : Nat
  out : List Nat
  ret : Int
deriving DecidableEq, Repr

/-- Engine model of one stateful `isal_inflate` call: consume the input
and emit decompressed bytes as long as both buffers allow, stopping with
`ISAL_DECOMP_OK` when either buffer is exhausted or the stream is
finished, and failing with `ISAL_INVALID_WRAPPER` on a header byte that
does not match the configured wrapper. -/
def inflateLoop : InfPhase → List Nat → Nat → InflateRun
  | ph, [], _ => ⟨ph, 0, [], ISAL_DECOMP_OK⟩
  | .finish, _ :: _, _ => ⟨.finish, 0, [], ISAL_DECOMP_OK⟩
  | .hdr [], _ :: _, _ => ⟨.hdr [], 0, [], ISAL_DECOMP_OK⟩
  | .hdr (e :: exp), c :: rest, availOut =>
    if c = e then
      let r := inflateLoop (normHdr exp) rest availOut
      ⟨r.phase, r.consumed + 1, r.out, r.ret⟩
    else ⟨.hdr (e :: exp), 0, [], ISAL_INVALID_WRAPPER⟩
  | .len acc need, c :: rest, availOut =>
    let r := inflateLoop (normLen (acc ++ [c]) (need - 1)) rest availOut
    ⟨r.phase, r.consumed + 1, r.out, r.ret⟩
  | .payload n, c :: rest, availOut =>
    if availOut = 0 then ⟨.payload n, 0, [], ISAL_DECOMP_OK⟩
    else
      let r := inflateLoop (normPayload (n - 1)) rest (availOut - 1)
      ⟨r.phase, r.consumed + 1, c :: r.out, r.ret⟩
  | .trailer n, _c :: rest, availOut =>
    let r := inflateLoop (normTrailer (n - 1)) rest availOut
    ⟨r.phase, r.consumed + 1, r.out, r.ret⟩

/-- Block state installed by `isal_inflate_init` / `isal_inflate_reset`
when `crc_flag` is `ISAL_GZIP`: expect a gzip wrapper. -/
def isalInflateInitPhase : InfPhase := .hdr gzipHeaderBytes

/-- Modelled from the spec: the sentinel compression level meaning
"algorithm default" (defined in the repository compression header, which
is not part of the source sample; the numeric value is the minimum of a
32-bit int). -/
def kUseDefaultCompressionLevel : Int := -2147483648

/-- Modelled from the spec: the concrete level the gzip codec resolves the
default sentinel to (defined in the repository compression headers, which
are not part of the source sample). -/
def kGZipDefaultCompressionLevel : Int := 9

/-- State of a `GZipCodec` instance: the constructor arguments, the two
mutually exclusive direction flags, the window-bits configuration of the
zlib `z_stream stream_`, and the block state and `total_out` counter of
the ISA-L `inflate_state state_`. -/
structure GZipCodec where
  format : GZipFormat
  compression_level : Int
  compressor_initialized : Bool
  decompressor_initialized : Bool
  streamWindowBits : Int
  inflatePhase : InfPhase
  inflateTotalOut : Nat
deriving DecidableEq, Repr

/-- The `GZipCodec` constructor: resolve the default-level sentinel and
start with both directions inactive. -/
def GZipCodec.new (compression_level : Int) (format : GZipFormat) : GZipCodec :=
  { format := format
    compression_level :=
      if compression_level = kUseDefaultCompressionLevel then
        kGZipDefaultCompressionLevel
      else compression_level
    compressor_initialized := false
    decompressor_initialized := false
    streamWindowBits := 0
    inflatePhase := isalInflateInitPhase
    inflateTotalOut := 0 }

/-- `GZipCodec::EndCompressor`: release the compression session if it is
active (`deflateEnd`) and clear its flag. -/
def GZipCodec.EndCompressor (st : GZipCodec) : GZipCodec :=
  { st with compressor_initialized := false }

/-- `GZipCodec::EndDecompressor`: reset the inflate session if it is
active (`isal_inflate_reset`) and clear its flag. -/
def GZipCodec.EndDecompressor (st : GZipCodec) : GZipCodec :=
  let st :=
    if st.decompressor_initialized then
      { st with inflatePhase := isalInflateInitPhase, inflateTotalOut := 0 }
    else st
  { st with decompressor_initialized := false }

/-- `GZipCodec::InitCompressor`: tear down the decompression direction,
zero the stream, and run `deflateInit2` with the default level in the
level slot and `compression_level_` in the memory-level slot, exactly as
the source call passes its arguments. -/
def GZipCodec.InitCompressor (st : GZipCodec) : Outcome Unit × GZipCodec :=
  let st := st.EndDecompressor
  let window_bits := CompressionWindowBitsForFormat st.format
  if deflateInit2Ok (-1) window_bits st.compression_level then
    (.ok (), { st with streamWindowBits := window_bits,
                       compressor_initialized := true })
  else
    (.ioError "zlib deflateInit failed: (unknown error)", st)

/-- `GZipCodec::InitDecompressor`: tear down the compression direction,
zero and initialize the inflate state with `crc_flag = ISAL_GZIP`
(the gzip wrapper is expected regardless of the configured format). -/
def GZipCodec.InitDecompressor (st : GZipCodec) : Outcome Unit × GZipCodec :=
  let st := st.EndCompressor
  (.ok (), { st with inflatePhase := isalInflateInitPhase,
                     inflateTotalOut := 0,
                     decompressor_initialized := true })

/-- `GZipCodec::Decompress` (one-shot): lazily switch to the decompression
direction, return zero early when the requested output capacity is zero,
otherwise reset the inflate session and run `isal_inflate` once over the
truncated 32-bit views of the buffers; the while loop of the source runs
its body at most once because the body either breaks or returns.  The
result carries the returned `total_out` together with the bytes written
into the output buffer. -/
def GZipCodec.Decompress (st : GZipCodec) (input : List Nat)
    (output_buffer_length : Nat) : Outcome (Nat × List Nat) × GZipCodec :=
  match (if st.decompressor_initialized then ((.ok () : Outcome Unit), st)
         else st.InitDecompressor) with
  | (.ok _, st) =>
    if output_buffer_length = 0 then (.ok (0, []), st)
    else
      let st := { st with inflatePhase := isalInflateInitPhase,
                          inflateTotalOut := 0 }
      let avail_in := u32cast input.length
      let avail_out := u32cast output_buffer_length
      let r := inflateLoop st.inflatePhase (input.take avail_in) avail_out
      let st := { st with inflatePhase := r.phase,
                          inflateTotalOut := st.inflateTotalOut + r.out.length }
      if r.ret = ISAL_BLOCK_FINISH ∨ r.ret = ISAL_DECOMP_OK then
        (.ok (st.inflateTotalOut, r.out), st)
      else
        (.ioError ("Too small a buffer passed to GZipCodec. InputLength=" ++
          toString input.length ++ " OutputLength=" ++
          toString output_buffer_length), st)
  | (.ioError m, st) => (.ioError m, st)
  | (.notImplemented m, st) => (.notImplemented m, st)
  | (.abort m, st) => (.abort m, st)

/-- `GZipCodec::MaxCompressedLen`: lazily switch to the compression
direction, aborting through `ARROW_CHECK_OK` if that initialization
fails, then return the engine bound plus the fixed pessimism constant 12
(ARROW-3514). -/
def GZipCodec.MaxCompressedLen (st : GZipCodec) (input_length : Nat) :
    Outcome Nat × GZipCodec :=
  match (if st.compressor_initialized then ((.ok () : Outcome Unit), st)
         else st.InitCompressor) with
  | (.ok _, st) => (.ok (deflateBound st.streamWindowBits input_length + 12), st)
  | (.ioError m, st) => (.abort ("ARROW_CHECK_OK failed: " ++ m), st)
  | (.notImplemented m, st) => (.abort ("ARROW_CHECK_OK failed: " ++ m), st)
  | (.abort m, st) => (.abort m, st)

/-- `GZipCodec::Compress` (one-shot): lazily switch to the compression
direction, then run `deflate(Z_FINISH)` over the truncated 32-bit views of
the buffers.  If the whole framed stream fits, the engine reports
`Z_STREAM_END`, the stream is reset in place and the written length is
returned; if it does not fit, the engine reports `Z_OK`, which the source
surfaces as the output-buffer-too-small error. -/
def GZipCodec.Compress (st : GZipCodec) (input : List Nat)
    (output_buffer_len : Nat) : Outcome (Nat × List Nat) × GZipCodec :=
  match (if st.compressor_initialized then ((.ok () : Outcome Unit), st)
         else st.InitCompressor) with
  | (.ok _, st) =>
    let avail_in := u32cast input.length
    let avail_out := u32cast output_buffer_len
    let frame := zlibFrame st.streamWindowBits (input.take avail_in)
    if frame.length ≤ avail_out then
      (.ok (output_buffer_len - (avail_out - frame.length), frame), st)
    else
      (.ioError "zlib deflate failed, output buffer too small", st)
  | (.ioError m, st) => (.ioError m, st)
  | (.notImplemented m, st) => (.notImplemented m, st)
  | (.abort m, st) => (.abort m, st)

/-- `GZipCodec::Init`: initialize the compression direction first, then
the decompression direction. -/
def GZipCodec.Init (st : GZipCodec) : Outcome Unit × GZipCodec :=
  match st.InitCompressor with
  | (.ok _, st) => st.InitDecompressor
  | r => r

/-- State of a streaming `GZipDecompressor` session. -/
structure GZipDecompressor where
  format : GZipFormat
  initialized : Bool
  finished : Bool
  phase : InfPhase
deriving DecidableEq, Repr

/-- The `GZipDecompressor` constructor. -/
def GZipDecompressor.new (format : GZipFormat) : GZipDecompressor :=
  { format := format
    initialized := false
    finished := false
    phase := isalInflateInitPhase }

/-- `GZipDecompressor::Init`: zero the state, clear the finished flag and
run `isal_inflate_init` with `crc_flag = ISAL_GZIP` (the `DCHECK` on the
flag is a debug-build assertion, compiled out in release builds). -/
def GZipDecompressor.Init (d : GZipDecompressor) :
    Outcome Unit × GZipDecompressor :=
  (.ok (), { d with finished := false,
                    phase := isalInflateInitPhase,
                    initialized := true })

/-- `GZipDecompressor::Reset`: clear the finished flag and reset the
inflate session for a new independent stream. -/
def GZipDecompressor.Reset (d : GZipDecompressor) :
    Outcome Unit × GZipDecompressor :=
  (.ok (), { d with finished := false, phase := isalInflateInitPhase })

/-- `GZipDecompressor::Decompress` (streaming): clamp both lengths to the
32-bit counter limit, run `isal_inflate` once, record whether the terminal
block state was reached, hard-assert through `ARROW_CHECK` that the engine
return code is `ISAL_DECOMP_OK`, and return the progress record with the
need-more-output flag set to the literal `false` of the source. -/
def GZipDecompressor.Decompress (d : GZipDecompressor) (input : List Nat)
    (output_len : Nat) : Outcome (DecompressResult × List Nat) × GZipDecompressor :=
  let input_limit : Nat := 4294967295
  let avail_in := min input.length input_limit
  let avail_out := min output_len input_limit
  let r := inflateLoop d.phase (input.take avail_in) avail_out
  let d := { d with phase := r.phase, finished := r.phase == .finish }
  if r.ret = ISAL_DECOMP_OK then
    (.ok ({ bytes_read := input.length - (avail_in - r.consumed)
            bytes_written := output_len - (avail_out - r.out.length)
            need_more_output := false }, r.out), d)
  else
    (.abort "ARROW_CHECK failed: (ret == ISAL_DECOMP_OK)", d)

/-- `GZipDecompressor::IsFinished`. -/
def GZipDecompressor.IsFinished (d : GZipDecompressor) : Bool := d.finished

/-- State of a streaming `GZipCompressor` session (only the configuration
relevant to initialization is modelled; the streaming deflate calls are
not needed by the verified claims). -/
structure GZipCompressor where
  initialized : Bool
  compression_level : Int
  windowBits : Int
deriving DecidableEq, Repr

/-- The `GZipCompressor` constructor. -/
def GZipCompressor.new (compression_level : Int) : GZipCompressor :=
  { initialized := false, compression_level := compression_level, windowBits := 0 }

/-- `GZipCompressor::Init`: run `deflateInit2` with the same argument
pattern as the codec (default level in the level slot, the configured
level in the memory-level slot). -/
def GZipCompressor.Init (c : GZipCompressor) (format : GZipFormat) :
    Outcome Unit × GZipCompressor :=
  let window_bits := CompressionWindowBitsForFormat format
  if deflateInit2Ok (-1) window_bits c.compression_level then
    (.ok (), { c with windowBits := window_bits, initialized := true })
  else
    (.ioError "zlib deflateInit failed: (unknown error)", c)

/-- `GZipCodec::MakeCompressor`: construct and initialize an independent
streaming compression session; the codec state is not touched. -/
def GZipCodec.MakeCompressor (st : GZipCodec) :
    Outcome GZipCompressor × GZipCodec :=
  match (GZipCompressor.new st.compression_level).Init st.format with
  | (.ok _, c) => (.ok c, st)
  | (.ioError m, _) => (.ioError m, st)
  | (.notImplemented m, _) => (.notImplemented m, st)
  | (.abort m, _) => (.abort m, st)

/-- `GZipCodec::MakeDecompressor`: construct and initialize an independent
streaming decompression session; the codec state is not touched. -/
def GZipCodec.MakeDecompressor (st : GZipCodec) :
    Outcome GZipDecompressor × GZipCodec :=
  match (GZipDecompressor.new st.format).Init with
  | (.ok _, d) => (.ok d, st)
  | (.ioError m, _) => (.ioError m, st)
  | (.notImplemented m, _) => (.notImplemented m, st)
  | (.abort m, _) => (.abort m, st)

/-- The codec a construction call produces: the software `GZipCodec` or
the hardware-offload `QatCodec`. -/
inductive CodecChoice where
  | software (codec : GZipCodec)
  | qat
deriving DecidableEq, Repr

/-- ASCII upper-casing of the configuration string, modelling the
`std::transform` + `std::toupper` pass of the source. -/
def upperAscii (s : String) : String := ⟨s.data.map Char.toUpper⟩

/-- `MakeGZipCodec`: consult the `ARROW_GZIP_BACKEND` configuration value
(`none` models an unset variable), matching the hardware label
case-insensitively; fall back to the software codec with a non-fatal
warning on an unavailable or unrecognized backend.  The returned list
collects the emitted `ARROW_LOG(WARNING)` messages.  `qatCompiled` models
the `ARROW_WITH_QAT` compile-time switch. -/
def MakeGZipCodec (envVar : Option String) (qatCompiled : Bool)
    (compression_level : Int) (format : GZipFormat) : CodecChoice × List String :=
  match envVar with
  | none => (.software (GZipCodec.new compression_level format), [])
  | some v =>
    let s := upperAscii v
    if s = "QAT" then
      if qatCompiled then (.qat, [])
      else (.software (GZipCodec.new compression_level format),
            ["Support for codec QAT not built"])
    else if s ≠ "" then
      (.software (GZipCodec.new compression_level format),
       ["Invalid backend for ARROW_GZIP_BACKEND: " ++ s ++ ", only support QAT now"])
    else (.software (GZipCodec.new compression_level format), [])

/-- The operations a caller can drive a software codec with (the two
factory methods construct independent sessions). -/
inductive CodecOp where
  | compressOp (input : List Nat) (outputLen : Nat)
  | decompressOp (input : List Nat) (outputLen : Nat)
  | maxLenOp (n : Nat)
  | initOp
  | makeCompressorOp
  | makeDecompressorOp

/-- One step of the codec state under a caller operation. -/
def codecStep (st : GZipCodec) (op : CodecOp) : GZipCodec :=
  match op with
  | .compressOp i o => (st.Compress i o).2
  | .decompressOp i o => (st.Decompress i o).2
  | .maxLenOp n => (st.MaxCompressedLen n).2
  | .initOp => (st.Init).2
  | .makeCompressorOp => (st.MakeCompressor).2
  | .makeDecompressorOp => (st.MakeDecompressor).2

/-- At most one direction of a codec is active. -/
def dirInvariant (st : GZipCodec) : Prop :=
  ¬(st.compressor_initialized = true ∧ st.decompressor_initialized = true)

instance (st : GZipCodec) : Decidable (dirInvariant st) := by
  unfold dirInvariant
  infer_instance

/-! ### Engine-model lemmas -/

theorem encLE_length (k n : Nat) : (encLE k n).length = k := by
  induction k generalizing n with
  | zero => simp [encLE]
  | succ k ih => simp [encLE, ih]

theorem encLE_ne_nil (n : Nat) : encLE 8 n ≠ [] := by
  intro h
  have := encLE_length 8 n
  rw [h] at this
  simp at this

theorem decLE_encLE (k n : Nat) (h : n < 256 ^ k) : decLE (encLE k n) = n := by
  induction k generalizing n with
  | zero =>
    have : n = 0 := by
      have : (256 : Nat) ^ 0 = 1 := by norm_num
      omega
    simp [encLE, decLE, this]
  | succ k ih =>
    have hdiv : n / 256 < 256 ^ k := by
      rw [Nat.div_lt_iff_lt_mul (by norm_num)]
      calc n < 256 ^ (k + 1) := h
        _ = 256 ^ k * 256 := by ring
    simp only [encLE, decLE]
    rw [ih (n / 256) hdiv]
    omega

theorem zlibFrame_gzip (b : List Nat) :
    zlibFrame 31 b = gzipHeaderBytes ++ (encLE 8 b.length ++ b) ++ List.replicate 8 0 := by
  simp [zlibFrame]

theorem zlibFrame_length (wb : Int) (b : List Nat) :
    (zlibFrame wb b).length = b.length + 8 + wrapOverhead wb := by
  unfold zlibFrame wrapOverhead
  split
  · simp [encLE_length]
    omega
  · split
    · simp [gzipHeaderBytes, encLE_length]
      omega
    · simp [encLE_length]
      omega

theorem inflateLoop_nil (ph : InfPhase) (out : Nat) :
    inflateLoop ph [] out = ⟨ph, 0, [], ISAL_DECOMP_OK⟩ := by
  cases ph <;> simp [inflateLoop]

theorem inflateLoop_hdr_step (e : Nat) (exp rest : List Nat) (out : Nat) :
    inflateLoop (.hdr (e :: exp)) (e :: rest) out =
      ⟨(inflateLoop (normHdr exp) rest out).phase,
       (inflateLoop (normHdr exp) rest out).consumed + 1,
       (inflateLoop (normHdr exp) rest out).out,
       (inflateLoop (normHdr exp) rest out).ret⟩ := by
  simp [inflateLoop]

theorem inflateLoop_hdr_mismatch (e c : Nat) (exp rest : List Nat) (out : Nat)
    (h : c ≠ e) :
    inflateLoop (.hdr (e :: exp)) (c :: rest) out =
      ⟨.hdr (e :: exp), 0, [], ISAL_INVALID_WRAPPER⟩ := by
  simp [inflateLoop, h]

theorem inflateLoop_len_step (acc : List Nat) (need c : Nat) (rest : List Nat)
    (out : Nat) :
    inflateLoop (.len acc need) (c :: rest) out =
      ⟨(inflateLoop (normLen (acc ++ [c]) (need - 1)) rest out).phase,
       (inflateLoop (normLen (acc ++ [c]) (need - 1)) rest out).consumed + 1,
       (inflateLoop (normLen (acc ++ [c]) (need - 1)) rest out).out,
       (inflateLoop (normLen (acc ++ [c]) (need - 1)) rest out).ret⟩ := by
  simp [inflateLoop]

theorem inflateLoop_payload_step (n c : Nat) (rest : List Nat) (out : Nat)
    (h : out ≠ 0) :
    inflateLoop (.payload n) (c :: rest) out =
      ⟨(inflateLoop (normPayload (n - 1)) rest (out - 1)).phase,
       (inflateLoop (normPayload (n - 1)) rest (out - 1)).consumed + 1,
       c :: (inflateLoop (normPayload (n - 1)) rest (out - 1)).out,
       (inflateLoop (normPayload (n - 1)) rest (out - 1)).ret⟩ := by
  simp [inflateLoop, h]

theorem inflateLoop_payload_full (n c : Nat) (rest : List Nat) :
    inflateLoop (.payload n) (c :: rest) 0 =
      ⟨.payload n, 0, [], ISAL_DECOMP_OK⟩ := by
  simp [inflateLoop]

theorem inflateLoop_trailer_step (n c : Nat) (rest : List Nat) (out : Nat) :
    inflateLoop (.trailer n) (c :: rest) out =
      ⟨(inflateLoop (normTrailer (n - 1)) rest out).phase,
       (inflateLoop (normTrailer (n - 1)) rest out).consumed + 1,
       (inflateLoop (normTrailer (n - 1)) rest out).out,
       (inflateLoop (normTrailer (n - 1)) rest out).ret⟩ := by
  simp [inflateLoop]

theorem inflateLoop_hdr (exp rest : List Nat) (out : Nat) :
    inflateLoop (normHdr exp) (exp ++ rest) out =
      ⟨(inflateLoop (.len [] 8) rest out).phase,
       (inflateLoop (.len [] 8) rest out).consumed + exp.length,
       (inflateLoop (.len [] 8) rest out).out,
       (inflateLoop (.len [] 8) rest out).ret⟩ := by
  induction exp with
  | nil => simp [normHdr]
  | cons e exp ih =>
    show inflateLoop (.hdr (e :: exp)) (e :: (exp ++ rest)) out = _
    rw [inflateLoop_hdr_step, ih]
    simp only [List.length_cons, InflateRun.mk.injEq, true_and, and_true]
    omega

theorem inflateLoop_len (c : Nat) (bs acc rest : List Nat) (out : Nat) :
    inflateLoop (.len acc (c :: bs).length) ((c :: bs) ++ rest) out =
      ⟨(inflateLoop (normPayload (decLE (acc ++ (c :: bs)))) rest out).phase,
       (inflateLoop (normPayload (decLE (acc ++ (c :: bs)))) rest out).consumed
         + (c :: bs).length,
       (inflateLoop (normPayload (decLE (acc ++ (c :: bs)))) rest out).out,
       (inflateLoop (normPayload (decLE (acc ++ (c :: bs)))) rest out).ret⟩ := by
  induction bs generalizing acc c with
  | nil =>
    show inflateLoop (.len acc 1) (c :: rest) out = _
    rw [inflateLoop_len_step]
    simp [normLen]
  | cons c2 bs2 ih =>
    show inflateLoop (.len acc ((c2 :: bs2).length + 1)) (c :: ((c2 :: bs2) ++ rest)) out = _
    rw [inflateLoop_len_step,
      show ((c2 :: bs2).length + 1 - 1) = (c2 :: bs2).length by omega,
      show normLen (acc ++ [c]) (c2 :: bs2).length
          = .len (acc ++ [c]) (c2 :: bs2).length by simp [normLen],
      ih c2 (acc ++ [c])]
    simp only [List.append_assoc, List.singleton_append, List.length_cons,
      InflateRun.mk.injEq, true_and, and_true]
    omega

theorem inflateLoop_payload (b rest : List Nat) (out : Nat) (h : b.length ≤ out) :
    inflateLoop (normPayload b.length) (b ++ rest) out =
      ⟨(inflateLoop (.trailer 8) rest (out - b.length)).phase,
       (inflateLoop (.trailer 8) rest (out - b.length)).consumed + b.length,
       b ++ (inflateLoop (.trailer 8) rest (out - b.length)).out,
       (inflateLoop (.trailer 8) rest (out - b.length)).ret⟩ := by
  induction b generalizing out with
  | nil => simp [normPayload]
  | cons c bs ih =>
    have hout : out ≠ 0 := by
      simp only [List.length_cons] at h
      omega
    have hle : bs.length ≤ out - 1 := by
      simp only [List.length_cons] at h
      omega
    show inflateLoop (normPayload (bs.length + 1)) (c :: (bs ++ rest)) out = _
    rw [show normPayload (bs.length + 1) = .payload (bs.length + 1) by
        simp [normPayload],
      inflateLoop_payload_step _ _ _ _ hout,
      show (bs.length + 1 - 1) = bs.length from rfl, ih (out - 1) hle,
      show out - 1 - bs.length = out - (bs.length + 1) by omega]
    simp only [List.cons_append, List.length_cons, InflateRun.mk.injEq,
      true_and, and_true]
    omega

theorem inflateLoop_trailer (c : Nat) (bs : List Nat) (out : Nat) :
    inflateLoop (.trailer (c :: bs).length) (c :: bs) out =
      ⟨.finish, (c :: bs).length, [], ISAL_DECOMP_OK⟩ := by
  induction bs generalizing c with
  | nil =>
    show inflateLoop (.trailer 1) [c] out = _
    rw [inflateLoop_trailer_step]
    simp [normTrailer, inflateLoop_nil]
  | cons c2 bs2 ih =>
    show inflateLoop (.trailer ((c2 :: bs2).length + 1)) (c :: (c2 :: bs2)) out = _
    rw [inflateLoop_trailer_step,
      show ((c2 :: bs2).length + 1 - 1) = (c2 :: bs2).length by omega,
      show normTrailer (c2 :: bs2).length = .trailer (c2 :: bs2).length by
        simp [normTrailer],
      ih c2]
    simp

theorem inflateLoop_len_gen (acc bytes rest : List Nat) (need out : Nat)
    (h : bytes.length = need) (hne : bytes ≠ []) :
    inflateLoop (.len acc need) (bytes ++ rest) out =
      ⟨(inflateLoop (normPayload (decLE (acc ++ bytes))) rest out).phase,
       (inflateLoop (normPayload (decLE (acc ++ bytes))) rest out).consumed + need,
       (inflateLoop (normPayload (decLE (acc ++ bytes))) rest out).out,
       (inflateLoop (normPayload (decLE (acc ++ bytes))) rest out).ret⟩ := by
  subst h
  cases bytes with
  | nil => exact absurd rfl hne
  | cons c bs => exact inflateLoop_len c bs acc rest out

theorem inflateLoop_trailer_gen (bytes : List Nat) (need out : Nat)
    (h : bytes.length = need) (hne : bytes ≠ []) :
    inflateLoop (.trailer need) bytes out =
      ⟨.finish, need, [], ISAL_DECOMP_OK⟩ := by
  subst h
  cases bytes with
  | nil => exact absurd rfl hne
  | cons c bs => exact inflateLoop_trailer c bs out

theorem inflateLoop_gzip_frame (b : List Nat) (out : Nat)
    (hb : b.length < 18446744073709551616) (hout : b.length ≤ out) :
    inflateLoop isalInflateInitPhase (zlibFrame 31 b) out =
      ⟨.finish, b.length + 26, b, ISAL_DECOMP_OK⟩ := by
  have h256 : (256 : Nat) ^ 8 = 18446744073709551616 := by norm_num
  rw [show isalInflateInitPhase = normHdr gzipHeaderBytes from rfl,
    zlibFrame_gzip, List.append_assoc, List.append_assoc, inflateLoop_hdr,
    inflateLoop_len_gen [] (encLE 8 b.length) (b ++ List.replicate 8 0) 8 out
      (encLE_length 8 b.length) (encLE_ne_nil b.length),
    List.nil_append, decLE_encLE 8 b.length (by omega),
    inflateLoop_payload b (List.replicate 8 0) out hout,
    inflateLoop_trailer_gen (List.replicate 8 0) 8 (out - b.length)
      (by simp) (by simp)]
  simp [gzipHeaderBytes]
  omega

/-! ### Codec-level helper lemmas -/

theorem windowBits_valid (fmt : GZipFormat) :
    (8 ≤ CompressionWindowBitsForFormat fmt ∧
       CompressionWindowBitsForFormat fmt ≤ 15) ∨
    (-15 ≤ CompressionWindowBitsForFormat fmt ∧
       CompressionWindowBitsForFormat fmt ≤ -8) ∨
    (24 ≤ CompressionWindowBitsForFormat fmt ∧
       CompressionWindowBitsForFormat fmt ≤ 31) := by
  cases fmt <;> decide

theorem deflateInit2Ok_of_level (fmt : GZipFormat) (lvl : Int)
    (h1 : 1 ≤ lvl) (h2 : lvl ≤ 9) :
    deflateInit2Ok (-1) (CompressionWindowBitsForFormat fmt) lvl :=
  ⟨Or.inl rfl, ⟨h1, h2⟩, windowBits_valid fmt⟩

theorem new_eq (lvl : Int) (fmt : GZipFormat)
    (h : lvl ≠ kUseDefaultCompressionLevel) :
    GZipCodec.new lvl fmt = ⟨fmt, lvl, false, false, 0, isalInflateInitPhase, 0⟩ := by
  simp [GZipCodec.new, h]

theorem InitCompressor_ok (fmt : GZipFormat) (lvl : Int) (d : Bool) (wb : Int)
    (ph : InfPhase) (t : Nat) (h1 : 1 ≤ lvl) (h2 : lvl ≤ 9) :
    (⟨fmt, lvl, false, d, wb, ph, t⟩ : GZipCodec).InitCompressor =
      (.ok (), ⟨fmt, lvl, true, false, CompressionWindowBitsForFormat fmt,
                (if d then isalInflateInitPhase else ph),
                (if d then 0 else t)⟩) := by
  have hok := deflateInit2Ok_of_level fmt lvl h1 h2
  cases d <;>
    simp [GZipCodec.InitCompressor, GZipCodec.EndDecompressor, hok]

theorem u32cast_eq (n : Nat) (h : n < 4294967296) : u32cast n = n :=
  Nat.mod_eq_of_lt h

theorem wrapOverhead_gzip : wrapOverhead 31 = 18 := by decide

theorem Compress_success (st : GZipCodec) (input : List Nat) (outLen : Nat)
    (hc : st.compressor_initialized = true)
    (hin : input.length < 4294967296)
    (hout : outLen < 4294967296)
    (hfit : (zlibFrame st.streamWindowBits input).length ≤ outLen) :
    st.Compress input outLen =
      (.ok ((zlibFrame st.streamWindowBits input).length,
            zlibFrame st.streamWindowBits input), st) := by
  simp only [GZipCodec.Compress, hc, if_true]
  rw [u32cast_eq input.length hin, u32cast_eq outLen hout, List.take_length,
    if_pos hfit, Nat.sub_sub_self hfit]

theorem Compress_too_small (st : GZipCodec) (input : List Nat) (outLen : Nat)
    (hc : st.compressor_initialized = true)
    (hin : input.length < 4294967296)
    (hfit : ¬ (zlibFrame st.streamWindowBits input).length ≤ u32cast outLen) :
    st.Compress input outLen =
      (.ioError "zlib deflate failed, output buffer too small", st) := by
  simp only [GZipCodec.Compress, hc, if_true]
  rw [u32cast_eq input.length hin, List.take_length, if_neg hfit]

theorem Decompress_gzip_frame (st : GZipCodec) (b : List Nat) (outLen : Nat)
    (h3 : b.length + 26 < 4294967296) (h4 : b.length ≤ outLen)
    (h5 : outLen < 4294967296) (h0 : outLen ≠ 0) :
    (st.Decompress (zlibFrame 31 b) outLen).1 = .ok (b.length, b) := by
  have hflen : (zlibFrame 31 b).length = b.length + 26 := by
    rw [zlibFrame_length, wrapOverhead_gzip]
  have hrun : inflateLoop isalInflateInitPhase (zlibFrame 31 b) outLen =
      ⟨.finish, b.length + 26, b, ISAL_DECOMP_OK⟩ :=
    inflateLoop_gzip_frame b outLen (by omega) h4
  cases hdec : st.decompressor_initialized <;>
    simp only [GZipCodec.Decompress, hdec, if_true, if_false,
      GZipCodec.InitDecompressor, GZipCodec.EndCompressor, if_neg h0,
      hflen, u32cast_eq _ h3, u32cast_eq _ h5] <;>
    rw [← hflen, List.take_length, hrun] <;>
    simp [ISAL_DECOMP_OK]

theorem Decompress_bad_first_byte (st : GZipCodec) (c : Nat) (cs : List Nat)
    (outLen : Nat) (hc : c ≠ 31) (hlen : cs.length + 1 < 4294967296)
    (h0 : outLen ≠ 0) :
    (st.Decompress (c :: cs) outLen).1 =
      .ioError ("Too small a buffer passed to GZipCodec. InputLength=" ++
        toString (cs.length + 1) ++ " OutputLength=" ++ toString outLen) := by
  have hrun : inflateLoop isalInflateInitPhase (c :: cs) (u32cast outLen) =
      ⟨.hdr gzipHeaderBytes, 0, [], ISAL_INVALID_WRAPPER⟩ := by
    rw [show isalInflateInitPhase
        = InfPhase.hdr (31 :: [139, 8, 0, 0, 0, 0, 0, 0, 255]) from rfl]
    exact inflateLoop_hdr_mismatch 31 c _ cs (u32cast outLen) hc
  have hl : ((c :: cs) : List Nat).length = cs.length + 1 := by simp
  cases hdec : st.decompressor_initialized <;>
    simp only [GZipCodec.Decompress, hdec, if_true, if_false,
      GZipCodec.InitDecompressor, GZipCodec.EndCompressor, if_neg h0, hl,
      u32cast_eq _ hlen] <;>
    rw [← hl, List.take_length, hrun] <;>
    simp [ISAL_INVALID_WRAPPER, ISAL_DECOMP_OK, ISAL_BLOCK_FINISH]

theorem Compress_after_init (st st1 : GZipCodec) (input : List Nat) (outLen : Nat)
    (hc : st.compressor_initialized = false)
    (h1 : st1.compressor_initialized = true)
    (hinit : st.InitCompressor = (.ok (), st1)) :
    st.Compress input outLen = st1.Compress input outLen := by
  simp [GZipCodec.Compress, hc, h1, hinit]

/-! ### Claim theorems -/

/-- Claim C1, amended: for the GZIP format and every supported compression
level, one-shot decompressing the result of one-shot compressing `b` with a
sufficiently large output buffer yields exactly `b`, for every byte
sequence whose length fits the 32-bit size fields the one-shot calls
truncate to.  For the DEFLATE and ZLIB formats the claim fails (see the
counterexample): the decompression direction is hard-wired to the gzip
wrapper. -/
theorem c1_round_trip_gzip_format (lvl : Int) (b : List Nat) (outLen : Nat)
    (h1 : 1 ≤ lvl) (h2 : lvl ≤ 9) (h3 : b.length + 38 < 4294967296)
    (h4 : b.length ≤ outLen) (h5 : outLen < 4294967296) :
    ((GZipCodec.new lvl .GZIP).Compress b (b.length + 38)).1 =
      .ok ((zlibFrame 31 b).length, zlibFrame 31 b) ∧
    (((GZipCodec.new lvl .GZIP).Compress b (b.length + 38)).2.Decompress
        (zlibFrame 31 b) outLen).1 = .ok (b.length, b) := by
  have hne : lvl ≠ kUseDefaultCompressionLevel := by
    unfold kUseDefaultCompressionLevel
    omega
  have hst0 : GZipCodec.new lvl .GZIP
      = ⟨.GZIP, lvl, false, false, 0, isalInflateInitPhase, 0⟩ :=
    new_eq lvl .GZIP hne
  have hinit : (⟨.GZIP, lvl, false, false, 0, isalInflateInitPhase, 0⟩ :
      GZipCodec).InitCompressor =
      (.ok (), ⟨.GZIP, lvl, true, false, 31, isalInflateInitPhase, 0⟩) := by
    rw [InitCompressor_ok .GZIP lvl false 0 isalInflateInitPhase 0 h1 h2]
    norm_num [CompressionWindowBitsForFormat, WINDOW_BITS, GZIP_CODEC]
  have hflen : (zlibFrame 31 b).length = b.length + 26 := by
    rw [zlibFrame_length, wrapOverhead_gzip]
  have hcomp : (GZipCodec.new lvl .GZIP).Compress b (b.length + 38) =
      (.ok ((zlibFrame 31 b).length, zlibFrame 31 b),
       ⟨.GZIP, lvl, true, false, 31, isalInflateInitPhase, 0⟩) := by
    rw [hst0, Compress_after_init _ _ b (b.length + 38) rfl rfl hinit,
      Compress_success _ b (b.length + 38) rfl (by omega) (by omega)
        (by simp [hflen])]
  refine ⟨by rw [hcomp], ?_⟩
  rw [hcomp]
  by_cases h0 : outLen = 0
  · have hb : b = [] := by
      have : b.length = 0 := by omega
      exact List.eq_nil_of_length_eq_zero this
    subst hb
    subst h0
    rfl
  · exact Decompress_gzip_frame _ b outLen (by omega) h4 h5 h0

/-- Witness for C1 at level 9 with a three-byte payload. -/
theorem c1_round_trip_gzip_format_witness :
    ((GZipCodec.new 9 .GZIP).Compress [1, 2, 3] 41).1 =
      .ok ((zlibFrame 31 [1, 2, 3]).length, zlibFrame 31 [1, 2, 3]) ∧
    (((GZipCodec.new 9 .GZIP).Compress [1, 2, 3] 41).2.Decompress
        (zlibFrame 31 [1, 2, 3]) 3).1 = .ok (3, [1, 2, 3]) :=
  c1_round_trip_gzip_format 9 [1, 2, 3] 3 (by norm_num) (by norm_num)
    (by norm_num) (by norm_num) (by norm_num)

/-- Counterexample to C1 as stated: with the DEFLATE format, compressing a
one-byte sequence succeeds (producing a raw-deflate stream), but one-shot
decompressing that very stream fails, because the decompression direction
always expects a gzip wrapper; the round trip does not return the original
byte. -/
theorem c1_counterexample_deflate_format :
    ((GZipCodec.new 9 .DEFLATE).Compress [42] 47).1 =
      .ok (9, encLE 8 1 ++ [42]) ∧
    (((GZipCodec.new 9 .DEFLATE).Compress [42] 47).2.Decompress
        (encLE 8 1 ++ [42]) 16).1 =
      .ioError "Too small a buffer passed to GZipCodec. InputLength=9 OutputLength=16" ∧
    (((GZipCodec.new 9 .DEFLATE).Compress [42] 47).2.Decompress
        (encLE 8 1 ++ [42]) 16).1 ≠ .ok (1, [42]) := by
  decide

theorem wrapOverhead_le (wb : Int) : wrapOverhead wb ≤ 18 := by
  unfold wrapOverhead
  split
  · omega
  · split <;> omega

/-- Claim C2, amended: for every input length `n` whose returned bound
still fits the 32-bit `avail_out` counter, a buffer of size
`MaxCompressedLen n` is sufficient for one-shot compress of any `n`-byte
input to succeed without the buffer-too-small failure, and the returned
bound equals the engine bound `deflateBound` plus the fixed pessimism
constant 12.  For lengths at the 32-bit boundary the claim fails (see the
counterexample): the buffer size is truncated by `static_cast<uInt>`. -/
theorem c2_bound_sound (lvl : Int) (fmt : GZipFormat) (b : List Nat)
    (h1 : 1 ≤ lvl) (h2 : lvl ≤ 9) (h3 : b.length + 38 < 4294967296) :
    ((GZipCodec.new lvl fmt).MaxCompressedLen b.length).1 =
      .ok (deflateBound (CompressionWindowBitsForFormat fmt) b.length + 12) ∧
    (((GZipCodec.new lvl fmt).MaxCompressedLen b.length).2.Compress b
        (deflateBound (CompressionWindowBitsForFormat fmt) b.length + 12)).1 =
      .ok ((zlibFrame (CompressionWindowBitsForFormat fmt) b).length,
           zlibFrame (CompressionWindowBitsForFormat fmt) b) := by
  have hne : lvl ≠ kUseDefaultCompressionLevel := by
    unfold kUseDefaultCompressionLevel
    omega
  have hov : wrapOverhead (CompressionWindowBitsForFormat fmt) ≤ 18 :=
    wrapOverhead_le _
  have hinit : (⟨fmt, lvl, false, false, 0, isalInflateInitPhase, 0⟩ :
      GZipCodec).InitCompressor =
      (.ok (), ⟨fmt, lvl, true, false, CompressionWindowBitsForFormat fmt,
                isalInflateInitPhase, 0⟩) := by
    rw [InitCompressor_ok fmt lvl false 0 isalInflateInitPhase 0 h1 h2]
    simp
  have hmax : (GZipCodec.new lvl fmt).MaxCompressedLen b.length =
      (.ok (deflateBound (CompressionWindowBitsForFormat fmt) b.length + 12),
       ⟨fmt, lvl, true, false, CompressionWindowBitsForFormat fmt,
        isalInflateInitPhase, 0⟩) := by
    rw [new_eq lvl fmt hne]
    simp [GZipCodec.MaxCompressedLen, hinit]
  refine ⟨by rw [hmax], ?_⟩
  rw [hmax]
  show ((⟨fmt, lvl, true, false, CompressionWindowBitsForFormat fmt,
          isalInflateInitPhase, 0⟩ : GZipCodec).Compress b
        (deflateBound (CompressionWindowBitsForFormat fmt) b.length + 12)).1 = _
  rw [Compress_success _ b _ rfl (by omega)
    (by
      show deflateBound (CompressionWindowBitsForFormat fmt) b.length + 12
          < 4294967296
      unfold deflateBound
      omega)
    (by
      show (zlibFrame (CompressionWindowBitsForFormat fmt) b).length
          ≤ deflateBound (CompressionWindowBitsForFormat fmt) b.length + 12
      rw [zlibFrame_length]
      unfold deflateBound
      omega)]

/-- Witness for C2 at level 9, GZIP format, a one-byte input. -/
theorem c2_bound_sound_witness :
    ((GZipCodec.new 9 .GZIP).MaxCompressedLen 1).1 = .ok 39 ∧
    (((GZipCodec.new 9 .GZIP).MaxCompressedLen 1).2.Compress [5] 39).1 =
      .ok (27, zlibFrame 31 [5]) :=
  c2_bound_sound 9 .GZIP [5] (by norm_num) (by norm_num) (by norm_num)

/-- Counterexample to C2 as stated: at input length 2^32 - 1 the returned
bound 2^32 + 37 truncates to 37 in the 32-bit `avail_out` counter, so a
buffer of exactly that size makes one-shot compress fail with the
buffer-too-small error. -/
theorem c2_counterexample_truncation :
    ((GZipCodec.new 9 .GZIP).MaxCompressedLen 4294967295).1 =
      .ok 4294967333 ∧
    (((GZipCodec.new 9 .GZIP).MaxCompressedLen 4294967295).2.Compress
        (List.replicate 4294967295 0) 4294967333).1 =
      .ioError "zlib deflate failed, output buffer too small" := by
  have hinit9 : (⟨.GZIP, 9, false, false, 0, isalInflateInitPhase, 0⟩ :
      GZipCodec).InitCompressor =
      (.ok (), ⟨.GZIP, 9, true, false, 31, isalInflateInitPhase, 0⟩) := by
    rw [InitCompressor_ok .GZIP 9 false 0 isalInflateInitPhase 0
      (by norm_num) (by norm_num)]
    norm_num [CompressionWindowBitsForFormat, WINDOW_BITS, GZIP_CODEC]
  have hmax : (GZipCodec.new 9 .GZIP).MaxCompressedLen 4294967295 =
      (.ok 4294967333,
       ⟨.GZIP, 9, true, false, 31, isalInflateInitPhase, 0⟩) := by
    rw [new_eq 9 .GZIP (by norm_num [kUseDefaultCompressionLevel])]
    simp [GZipCodec.MaxCompressedLen, hinit9]
    norm_num [deflateBound, wrapOverhead]
  refine ⟨by rw [hmax], ?_⟩
  rw [hmax]
  show ((⟨.GZIP, 9, true, false, 31, isalInflateInitPhase, 0⟩ :
      GZipCodec).Compress (List.replicate 4294967295 0) 4294967333).1 = _
  rw [Compress_too_small _ _ _ rfl
    (by rw [List.length_replicate]; norm_num)
    (by
      show ¬ (zlibFrame (31 : Int) (List.replicate 4294967295 (0 : Nat))).length
          ≤ u32cast 4294967333
      rw [zlibFrame_length, wrapOverhead_gzip, List.length_replicate]
      norm_num [u32cast])]

/-- Claim C3, evaluated at the failing input: one-shot decompressing the
46-byte compressed frame of a 20-byte payload into a 10-byte output buffer
returns a partial success of 10 bytes instead of failing with the
buffer-too-small error.  The engine reports output exhaustion through the
buffer counters with an `ISAL_DECOMP_OK` return code, which the source
accepts as success because it compares the return code against the
block-state constant `ISAL_BLOCK_FINISH`; the buffer-too-small error
branch is reachable only on engine error codes. -/
theorem c3_partial_success_eval :
    (zlibFrame 31 (List.range 20)).length = 46 ∧
    ((GZipCodec.new 9 .GZIP).Decompress (zlibFrame 31 (List.range 20)) 10).1 =
      .ok (10, [0, 1, 2, 3, 4, 5, 6, 7, 8, 9]) := by
  decide

theorem InitDecompressor_eq (st : GZipCodec) :
    st.InitDecompressor =
      (.ok (), ⟨st.format, st.compression_level, false, true,
        st.streamWindowBits, isalInflateInitPhase, 0⟩) := by
  simp [GZipCodec.InitDecompressor, GZipCodec.EndCompressor]

theorem InitCompressor_ok_any (st : GZipCodec)
    (h1 : 1 ≤ st.compression_level) (h2 : st.compression_level ≤ 9) :
    st.InitCompressor =
      (.ok (), ⟨st.format, st.compression_level, true, false,
        CompressionWindowBitsForFormat st.format,
        (if st.decompressor_initialized then isalInflateInitPhase
         else st.inflatePhase),
        (if st.decompressor_initialized then 0 else st.inflateTotalOut)⟩) := by
  have hok := deflateInit2Ok_of_level st.format st.compression_level h1 h2
  cases hd : st.decompressor_initialized <;>
    simp [GZipCodec.InitCompressor, GZipCodec.EndDecompressor, hok, hd]

/-- Claim C4, amended: one-shot decompress surfaces malformed input as a
returned error Status, but streaming `Decompressor::Decompress` hard
asserts through `ARROW_CHECK` that the engine return code is
`ISAL_DECOMP_OK`, so malformed compressed data — an input any caller can
supply — terminates the process instead of returning a CorruptInput-class
failure. -/
theorem c4_streaming_corrupt_aborts (c : Nat) (cs : List Nat) (outLen : Nat)
    (hc : c ≠ 31) (hlen : cs.length + 1 < 4294967296) (h0 : outLen ≠ 0) :
    ((((GZipDecompressor.new .GZIP).Init).2).Decompress (c :: cs) outLen).1 =
      .abort "ARROW_CHECK failed: (ret == ISAL_DECOMP_OK)" ∧
    ((GZipCodec.new 9 .GZIP).Decompress (c :: cs) outLen).1 =
      .ioError ("Too small a buffer passed to GZipCodec. InputLength=" ++
        toString (cs.length + 1) ++ " OutputLength=" ++ toString outLen) := by
  constructor
  · have hmin : min ((c :: cs) : List Nat).length 4294967295
        = ((c :: cs) : List Nat).length :=
      Nat.min_eq_left (by rw [List.length_cons]; omega)
    have hrun : inflateLoop isalInflateInitPhase (c :: cs)
        (min outLen 4294967295) =
        ⟨.hdr gzipHeaderBytes, 0, [], ISAL_INVALID_WRAPPER⟩ := by
      rw [show isalInflateInitPhase
          = InfPhase.hdr (31 :: [139, 8, 0, 0, 0, 0, 0, 0, 255]) from rfl]
      exact inflateLoop_hdr_mismatch 31 c _ cs _ hc
    show (GZipDecompressor.Decompress
        ⟨.GZIP, true, false, isalInflateInitPhase⟩ (c :: cs) outLen).1 = _
    simp only [GZipDecompressor.Decompress, hmin, List.take_length]
    rw [hrun]
    simp [ISAL_INVALID_WRAPPER, ISAL_DECOMP_OK]
  · exact Decompress_bad_first_byte _ c cs outLen hc hlen h0

/-- Witness for C4: first input byte 0 instead of the gzip magic 31. -/
theorem c4_streaming_corrupt_aborts_witness :
    ((((GZipDecompressor.new .GZIP).Init).2).Decompress [0, 7] 4).1 =
      .abort "ARROW_CHECK failed: (ret == ISAL_DECOMP_OK)" ∧
    ((GZipCodec.new 9 .GZIP).Decompress [0, 7] 4).1 =
      .ioError ("Too small a buffer passed to GZipCodec. InputLength=" ++
        toString (2 : Nat) ++ " OutputLength=" ++ toString (4 : Nat)) :=
  c4_streaming_corrupt_aborts 0 [7] 4 (by norm_num) (by norm_num) (by norm_num)

/-- Counterexample to C4 as stated: feeding the malformed two-byte input
`[0, 0]` to a freshly initialized streaming decompressor terminates the
process through `ARROW_CHECK` instead of returning a failure outcome. -/
theorem c4_counterexample_abort :
    (((GZipDecompressor.new .GZIP).Init).2.Decompress [0, 0] 16).1 =
      .abort "ARROW_CHECK failed: (ret == ISAL_DECOMP_OK)" := by
  decide

/-- Claim C5, amended: zero-capacity one-shot decompress always returns
zero bytes produced and never fails; the engine state is untouched only
when the decompression direction was already active — otherwise the call
first switches the codec to the decompression direction (tearing down any
active compression session) before the zero-capacity check. -/
theorem c5_zero_capacity (st : GZipCodec) (input : List Nat) :
    (st.Decompress input 0).1 = .ok (0, []) ∧
    (st.decompressor_initialized = true → (st.Decompress input 0).2 = st) ∧
    (st.decompressor_initialized = false →
      (st.Decompress input 0).2 = (st.InitDecompressor).2) := by
  cases hd : st.decompressor_initialized <;>
    simp [GZipCodec.Decompress, GZipCodec.InitDecompressor,
      GZipCodec.EndCompressor, hd]

/-- Witness for C5 on a codec whose decompression direction is active. -/
theorem c5_zero_capacity_witness :
    ((((GZipCodec.new 9 .GZIP).InitDecompressor).2).Decompress [1, 2] 0).1 =
      .ok (0, []) ∧
    ((((GZipCodec.new 9 .GZIP).InitDecompressor).2).Decompress [1, 2] 0).2 =
      ((GZipCodec.new 9 .GZIP).InitDecompressor).2 :=
  ⟨(c5_zero_capacity _ [1, 2]).1, (c5_zero_capacity _ [1, 2]).2.1 (by decide)⟩

/-- Counterexample to C5 as stated: on a fresh codec, a zero-capacity
decompress of a non-empty input returns zero bytes but does mutate the
codec: it activates the decompression session before the zero-capacity
check, so the engine state is not "exactly as it was before the call". -/
theorem c5_counterexample_lazy_switch :
    ((GZipCodec.new 9 .GZIP).Decompress [1] 0).1 = .ok (0, []) ∧
    ((GZipCodec.new 9 .GZIP).Decompress [1] 0).2.decompressor_initialized
      = true ∧
    (GZipCodec.new 9 .GZIP).decompressor_initialized = false ∧
    ((GZipCodec.new 9 .GZIP).Decompress [1] 0).2 ≠ GZipCodec.new 9 .GZIP := by
  decide

/-- Claim C6, amended: after a successful explicit `Init`, only the
decompression direction is active: the compression direction is
initialized first and then torn down when the decompression direction
initializes (the two directions are mutually exclusive), so the first
subsequent compress call still pays the lazy initialization while the
first decompress call does not. -/
theorem c6_init_activates_decompressor_only (st : GZipCodec)
    (h1 : 1 ≤ st.compression_level) (h2 : st.compression_level ≤ 9) :
    (st.Init).1 = .ok () ∧
    (st.Init).2.compressor_initialized = false ∧
    (st.Init).2.decompressor_initialized = true := by
  simp only [GZipCodec.Init, InitCompressor_ok_any st h1 h2,
    InitDecompressor_eq]
  simp

/-- Witness for C6 on a freshly constructed level-9 codec. -/
theorem c6_init_witness :
    ((GZipCodec.new 9 .GZIP).Init).1 = .ok () ∧
    ((GZipCodec.new 9 .GZIP).Init).2.compressor_initialized = false ∧
    ((GZipCodec.new 9 .GZIP).Init).2.decompressor_initialized = true :=
  c6_init_activates_decompressor_only _ (by decide) (by decide)

/-- Counterexample to C6 as stated: after a successful `Init`, the
compression direction is not active, so the claim that both directions are
active (and that a subsequent compress pays no lazy initialization) is
false. -/
theorem c6_counterexample_compressor_inactive :
    ((GZipCodec.new 9 .GZIP).Init).1 = .ok () ∧
    ((GZipCodec.new 9 .GZIP).Init).2.compressor_initialized = false := by
  decide

theorem InitCompressor_decomp_false (st : GZipCodec) :
    ((st.InitCompressor).2).decompressor_initialized = false := by
  unfold GZipCodec.InitCompressor GZipCodec.EndDecompressor
  cases hd : st.decompressor_initialized <;> simp [hd] <;>
    (split <;> simp)

theorem InitDecompressor_comp_false (st : GZipCodec) :
    ((st.InitDecompressor).2).compressor_initialized = false := by
  rw [InitDecompressor_eq]

theorem Compress_state (st : GZipCodec) (i : List Nat) (o : Nat) :
    (st.Compress i o).2 =
      if st.compressor_initialized then st else (st.InitCompressor).2 := by
  cases hc : st.compressor_initialized
  · rcases hI : st.InitCompressor with ⟨r, st1⟩
    cases r with
    | ok a =>
      simp [GZipCodec.Compress, hc, hI]
      split <;> rfl
    | ioError m => simp [GZipCodec.Compress, hc, hI]
    | notImplemented m => simp [GZipCodec.Compress, hc, hI]
    | abort m => simp [GZipCodec.Compress, hc, hI]
  · simp [GZipCodec.Compress, hc]
    split <;> rfl

theorem dirInvariant_of_decomp_false (st : GZipCodec)
    (h : st.decompressor_initialized = false) : dirInvariant st := by
  unfold dirInvariant
  simp [h]

theorem dirInvariant_Compress (st : GZipCodec) (i : List Nat) (o : Nat)
    (h : dirInvariant st) : dirInvariant ((st.Compress i o).2) := by
  rw [Compress_state]
  split
  · exact h
  · exact dirInvariant_of_decomp_false _ (InitCompressor_decomp_false st)

theorem Decompress_flags (st : GZipCodec) (i : List Nat) (o : Nat) :
    ((st.Decompress i o).2).compressor_initialized =
      (if st.decompressor_initialized then st.compressor_initialized
       else false) ∧
    ((st.Decompress i o).2).decompressor_initialized = true := by
  cases hd : st.decompressor_initialized <;>
    simp only [GZipCodec.Decompress, InitDecompressor_eq, hd, if_true,
      if_false, Bool.false_eq_true, ite_false, ite_true] <;>
    constructor <;>
    split <;>
    first
      | (split <;> simp [hd])
      | simp [hd]

theorem dirInvariant_Decompress (st : GZipCodec) (i : List Nat) (o : Nat)
    (h : dirInvariant st) : dirInvariant ((st.Decompress i o).2) := by
  have hf := Decompress_flags st i o
  unfold dirInvariant at *
  intro hcon
  rw [hf.1] at hcon
  rcases hcon with ⟨hc, -⟩
  by_cases hd : st.decompressor_initialized = true
  · rw [if_pos hd] at hc
    exact h ⟨hc, hd⟩
  · rw [if_neg hd] at hc
    exact absurd hc (by simp)

theorem dirInvariant_MaxLen (st : GZipCodec) (n : Nat)
    (h : dirInvariant st) : dirInvariant ((st.MaxCompressedLen n).2) := by
  cases hc : st.compressor_initialized
  · rcases hI : st.InitCompressor with ⟨r, st1⟩
    have hd : st1.decompressor_initialized = false := by
      have := InitCompressor_decomp_false st
      rw [hI] at this
      exact this
    cases r <;> simp [GZipCodec.MaxCompressedLen, hc, hI] <;>
      exact dirInvariant_of_decomp_false _ hd
  · simp [GZipCodec.MaxCompressedLen, hc]
    exact h

theorem dirInvariant_Init (st : GZipCodec) :
    dirInvariant ((st.Init).2) := by
  rcases hI : st.InitCompressor with ⟨r, st1⟩
  have hd : st1.decompressor_initialized = false := by
    have := InitCompressor_decomp_false st
    rw [hI] at this
    exact this
  cases r with
  | ok a =>
    simp only [GZipCodec.Init, hI]
    unfold dirInvariant
    rw [InitDecompressor_comp_false]
    simp
  | ioError m => simp [GZipCodec.Init, hI, dirInvariant_of_decomp_false _ hd]
  | notImplemented m => simp [GZipCodec.Init, hI, dirInvariant_of_decomp_false _ hd]
  | abort m => simp [GZipCodec.Init, hI, dirInvariant_of_decomp_false _ hd]

theorem MakeCompressor_state (st : GZipCodec) : (st.MakeCompressor).2 = st := by
  rcases h : (GZipCompressor.new st.compression_level).Init st.format with ⟨r, c⟩
  cases r <;> simp [GZipCodec.MakeCompressor, h]

theorem MakeDecompressor_state (st : GZipCodec) :
    (st.MakeDecompressor).2 = st := by
  rcases h : (GZipDecompressor.new st.format).Init with ⟨r, d⟩
  cases r <;> simp [GZipCodec.MakeDecompressor, h]

theorem dirInvariant_step (st : GZipCodec) (op : CodecOp)
    (h : dirInvariant st) : dirInvariant (codecStep st op) := by
  cases op with
  | compressOp i o => exact dirInvariant_Compress st i o h
  | decompressOp i o => exact dirInvariant_Decompress st i o h
  | maxLenOp n => exact dirInvariant_MaxLen st n h
  | initOp => exact dirInvariant_Init st
  | makeCompressorOp =>
    show dirInvariant ((st.MakeCompressor).2)
    rw [MakeCompressor_state]
    exact h
  | makeDecompressorOp =>
    show dirInvariant ((st.MakeDecompressor).2)
    rw [MakeDecompressor_state]
    exact h

theorem dirInvariant_foldl (ops : List CodecOp) (st : GZipCodec)
    (h : dirInvariant st) : dirInvariant (ops.foldl codecStep st) := by
  induction ops generalizing st with
  | nil => exact h
  | cons op ops ih => exact ih _ (dirInvariant_step st op h)

/-- Claim C7: from construction, every sequence of codec operations keeps
at most one direction active at a time; moreover each direction switch
first tears down the other session: initializing the compressor leaves the
decompression direction inactive and initializing the decompressor leaves
the compression direction inactive. -/
theorem c7_single_active_direction :
    (∀ (lvl : Int) (fmt : GZipFormat) (ops : List CodecOp),
      dirInvariant (ops.foldl codecStep (GZipCodec.new lvl fmt))) ∧
    (∀ st : GZipCodec,
      ((st.InitCompressor).2).decompressor_initialized = false) ∧
    (∀ st : GZipCodec,
      ((st.InitDecompressor).2).compressor_initialized = false) := by
  refine ⟨?_, InitCompressor_decomp_false, InitDecompressor_comp_false⟩
  intro lvl fmt ops
  refine dirInvariant_foldl ops _ ?_
  unfold dirInvariant GZipCodec.new
  simp

/-- Claim C9, amended: the result of every streaming decompress call
carries `need_more_output = false` — the source returns the literal
`false` — so the call that makes no progress solely because the output
buffer was exhausted before the input is not reported through the flag. -/
theorem c9_flag_never_set (d : GZipDecompressor) (input : List Nat)
    (outLen : Nat) (r : DecompressResult × List Nat) (d2 : GZipDecompressor)
    (h : d.Decompress input outLen = (.ok r, d2)) :
    r.1.need_more_output = false := by
  simp only [GZipDecompressor.Decompress] at h
  split at h
  · have h1 := congrArg Prod.fst h
    simp only at h1
    injection h1 with h2
    rw [← h2]
  · have h1 := congrArg Prod.fst h
    simp at h1

/-- Witness for C9 on a successful streaming call over the compressed
frame of the empty payload. -/
theorem c9_flag_never_set_witness :
    ({ bytes_read := 26, bytes_written := 0, need_more_output := false } :
      DecompressResult).need_more_output = false :=
  c9_flag_never_set (((GZipDecompressor.new .GZIP).Init).2) (zlibFrame 31 [])
    5 ({ bytes_read := 26, bytes_written := 0, need_more_output := false }, [])
    ⟨.GZIP, true, true, .finish⟩ (by decide)

/-- Counterexample to C9 as stated: after a first call consumes the
header, the length prefix and one payload byte of a two-byte-payload
stream, a second call with the remaining non-empty input and output
capacity 0 makes no progress solely because the output buffer is
exhausted, yet the returned result still has `need_more_output = false`
and reports zero bytes of progress. -/
theorem c9_counterexample_flag_false :
    (zlibFrame 31 [7, 8]).drop 19 ≠ [] ∧
    ((((((GZipDecompressor.new .GZIP).Init).2).Decompress
        (zlibFrame 31 [7, 8]) 1).2).Decompress
        ((zlibFrame 31 [7, 8]).drop 19) 0).1 =
      .ok ({ bytes_read := 0, bytes_written := 0, need_more_output := false },
           []) := by
  decide

theorem EndDecompressor_keeps_config (st : GZipCodec) :
    (st.EndDecompressor).format = st.format ∧
    (st.EndDecompressor).compression_level = st.compression_level := by
  cases hd : st.decompressor_initialized <;>
    simp [GZipCodec.EndDecompressor, hd]

/-- Claim C10: `MaxCompressedLen` is not a pure query.  When the
decompression direction is active (the compression direction being
inactive, per the codec invariant), the call tears the decompression
session down and leaves the compression direction active, returning the
engine bound plus the constant 12.  When the lazy compressor
initialization fails — the configured level is outside what `deflateInit2`
accepts in the slot the source passes it in — the call terminates the
process through `ARROW_CHECK_OK` instead of returning an error. -/
theorem c10_maxlen_side_effects :
    (∀ (st : GZipCodec) (n : Nat),
      st.decompressor_initialized = true →
      st.compressor_initialized = false →
      1 ≤ st.compression_level → st.compression_level ≤ 9 →
      ((st.MaxCompressedLen n).2).decompressor_initialized = false ∧
      ((st.MaxCompressedLen n).2).compressor_initialized = true ∧
      (st.MaxCompressedLen n).1 =
        .ok (deflateBound (CompressionWindowBitsForFormat st.format) n + 12)) ∧
    (∀ (st : GZipCodec) (n : Nat),
      st.compressor_initialized = false →
      (st.compression_level < 1 ∨ 9 < st.compression_level) →
      (st.MaxCompressedLen n).1 =
        .abort ("ARROW_CHECK_OK failed: " ++
          "zlib deflateInit failed: (unknown error)")) := by
  constructor
  · intro st n hd hc h1 h2
    have hI := InitCompressor_ok_any st h1 h2
    simp [GZipCodec.MaxCompressedLen, hc, hI, hd]
  · intro st n hc hbad
    have hfail : ¬ deflateInit2Ok (-1)
        (CompressionWindowBitsForFormat st.format) st.compression_level := by
      rintro ⟨-, ⟨m1, m2⟩, -⟩
      omega
    cases hd : st.decompressor_initialized <;>
      simp [GZipCodec.MaxCompressedLen, hc, GZipCodec.InitCompressor,
        GZipCodec.EndDecompressor, hd, hfail]

/-- Witness for C10: a level-9 codec with the decompression direction
active switches direction inside the bound query; a level-0 codec (level 0
is rejected in the slot the source passes it to deflateInit2) aborts. -/
theorem c10_maxlen_side_effects_witness :
    ((((GZipCodec.new 9 .GZIP).InitDecompressor).2.MaxCompressedLen
        5).2).decompressor_initialized = false ∧
    ((((GZipCodec.new 9 .GZIP).InitDecompressor).2.MaxCompressedLen
        5).2).compressor_initialized = true ∧
    (((GZipCodec.new 9 .GZIP).InitDecompressor).2.MaxCompressedLen 5).1 =
      .ok (deflateBound (CompressionWindowBitsForFormat .GZIP) 5 + 12) ∧
    ((GZipCodec.new 0 .GZIP).MaxCompressedLen 3).1 =
      .abort ("ARROW_CHECK_OK failed: " ++
        "zlib deflateInit failed: (unknown error)") := by
  have h := c10_maxlen_side_effects.1
    (((GZipCodec.new 9 .GZIP).InitDecompressor).2) 5
    (by decide) (by decide) (by decide) (by decide)
  exact ⟨h.1, h.2.1, h.2.2,
    c10_maxlen_side_effects.2 (GZipCodec.new 0 .GZIP) 3 (by decide)
      (by decide)⟩

/-- Claim C8: backend selection from the configuration value.  Unset or
empty yields the default software codec with no warning; a value whose
case-insensitive match is the hardware label QAT yields the hardware codec
when it is compiled in, else one non-fatal warning plus the software
codec; any other non-empty value yields one non-fatal warning naming the
(case-folded) invalid value plus the software codec.  Construction always
returns a codec; it never fails because of the configuration value. -/
theorem c8_backend_selection (lvl : Int) (fmt : GZipFormat) (qc : Bool) :
    (MakeGZipCodec none qc lvl fmt =
      (.software (GZipCodec.new lvl fmt), [])) ∧
    (∀ v : String, upperAscii v = "" →
      MakeGZipCodec (some v) qc lvl fmt =
        (.software (GZipCodec.new lvl fmt), [])) ∧
    (∀ v : String, upperAscii v = "QAT" →
      MakeGZipCodec (some v) true lvl fmt = (.qat, []) ∧
      MakeGZipCodec (some v) false lvl fmt =
        (.software (GZipCodec.new lvl fmt),
         ["Support for codec QAT not built"])) ∧
    (∀ v : String, upperAscii v ≠ "QAT" → upperAscii v ≠ "" →
      MakeGZipCodec (some v) qc lvl fmt =
        (.software (GZipCodec.new lvl fmt),
         ["Invalid backend for ARROW_GZIP_BACKEND: " ++ upperAscii v ++
          ", only support QAT now"])) := by
  refine ⟨rfl, ?_, ?_, ?_⟩
  · intro v hv
    simp [MakeGZipCodec, hv]
  · intro v hv
    constructor <;> simp [MakeGZipCodec, hv]
  · intro v hv1 hv2
    simp [MakeGZipCodec, hv1, hv2]

/-- Witness for C8: the label qAt matches QAT case-insensitively and, with
the hardware backend not compiled in, falls back with one warning; the
unrecognized label zstd falls back with one warning naming it. -/
theorem c8_backend_selection_witness :
    MakeGZipCodec (some "qAt") false 9 .GZIP =
      (.software (GZipCodec.new 9 .GZIP),
       ["Support for codec QAT not built"]) ∧
    MakeGZipCodec (some "zstd") true 9 .GZIP =
      (.software (GZipCodec.new 9 .GZIP),
       ["Invalid backend for ARROW_GZIP_BACKEND: " ++ upperAscii "zstd" ++
        ", only support QAT now"]) :=
  ⟨((c8_backend_selection 9 .GZIP false).2.2.1 "qAt" (by decide)).2,
   (c8_backend_selection 9 .GZIP true).2.2.2 "zstd" (by decide) (by decide)⟩

end ArrowGzip
